import Mathlib

/-!
Shallow embedding of the Raycasting-Engine sources (src/src/engine.c,
src/src/map.c, src/src/physics.c, src/src/rendering.c, src/src/particles.c)
over exact rational arithmetic, together with theorems settling the frozen
claims about the renderer.

Conventions of the embedding:
* C `float` values are modelled as `ℚ`; decimal literals of the source are
  taken as exact rationals.
* A C cast `(int)f` truncates toward zero: modelled by `ctrunc`.
* A C cast `(uint8_t)f` truncates toward zero and keeps the low byte
  (two of-complement wrap, as on the common targets): modelled by `toU8`.
* C integer `/` and `%` truncate toward zero: modelled by `Int.tdiv` and
  `Int.tmod`.
* The fixed-size C arrays behind the accessor functions are modelled as
  total functions on `ℤ`, indexed in the same `[y][x]` order as the source.
-/

namespace RE

-- The four rational operations below are irreducible in the library, which
-- blocks kernel evaluation of concrete states; restoring the default
-- reducibility lets `decide` evaluate the embedded code on concrete inputs.
attribute [local semireducible] Rat.mul Rat.add Rat.sub Rat.inv

/-- Truncation toward zero of a rational, the semantics of a C `(int)` cast. -/
def ctrunc (q : ℚ) : ℤ := Int.tdiv q.num q.den

/-- Narrowing of a C float to `uint8_t`: truncate toward zero, keep the low
byte (the wrap behaviour of the common two of-complement targets). -/
def toU8 (q : ℚ) : ℕ := ((ctrunc q) % 256).toNat

-- Configuration constants from include/engine.h
def SCREEN_WIDTH : ℤ := 1280
def SCREEN_HEIGHT : ℤ := 720
def MAX_RENDER_DISTANCE : ℚ := 50
def MAP_WIDTH : ℤ := 64
def MAP_HEIGHT : ℤ := 64

/-- Vec2 from include/engine.h (float components). -/
structure Vec2 where
  x : ℚ
  y : ℚ
deriving DecidableEq

/-- Vec3 from include/engine.h. -/
structure Vec3 where
  x : ℚ
  y : ℚ
  z : ℚ
deriving DecidableEq

/-- Color from include/engine.h: four uint8_t channels, modelled as naturals
kept below 256 by the byte-narrowing operations. -/
structure Color where
  r : ℕ
  g : ℕ
  b : ℕ
  a : ℕ
deriving DecidableEq

/-- ColorF from include/engine.h: four float channels. -/
structure ColorF where
  r : ℚ
  g : ℚ
  b : ℚ
  a : ℚ
deriving DecidableEq

/-- Door from include/engine.h. -/
structure Door where
  x : ℤ
  y : ℤ
  open_amount : ℚ
  is_opening : Bool
  is_closing : Bool
  texture_id : ℤ
  horizontal : Bool
deriving DecidableEq

/-- Light from include/engine.h. -/
structure Light where
  position : Vec3
  color : ColorF
  intensity : ℚ
  radius : ℚ
  cast_shadows : Bool
  flickering : ℚ
deriving DecidableEq

/-- WorldMap from include/engine.h: the fixed 64x64 grids are modelled as
total functions indexed `[y][x]` as in the source; the bounded door array is
a list. -/
structure WorldMap where
  tiles : ℤ → ℤ → ℤ
  floor_heights : ℤ → ℤ → ℚ
  ceiling_heights : ℤ → ℤ → ℚ
  floor_textures : ℤ → ℤ → ℤ
  ceiling_textures : ℤ → ℤ → ℤ
  wall_textures : ℤ → ℤ → ℤ
  doors : List Door

/-- map_get_tile from src/map.c: out of bounds resolves to the solid wall
tile 1. -/
def map_get_tile (map : WorldMap) (x y : ℤ) : ℤ :=
  if x < 0 ∨ x ≥ MAP_WIDTH ∨ y < 0 ∨ y ≥ MAP_HEIGHT then 1
  else map.tiles y x

/-- map_get_floor_height from src/map.c: out of bounds resolves to 0.0. -/
def map_get_floor_height (map : WorldMap) (x y : ℤ) : ℚ :=
  if x < 0 ∨ x ≥ MAP_WIDTH ∨ y < 0 ∨ y ≥ MAP_HEIGHT then 0
  else map.floor_heights y x

/-- map_get_ceiling_height from src/map.c: out of bounds resolves to 1.0. -/
def map_get_ceiling_height (map : WorldMap) (x y : ℤ) : ℚ :=
  if x < 0 ∨ x ≥ MAP_WIDTH ∨ y < 0 ∨ y ≥ MAP_HEIGHT then 1
  else map.ceiling_heights y x

/-- Sample world with every interior cell open; used to instantiate
witnesses at concrete inputs. -/
def testWorld : WorldMap where
  tiles := fun _ _ => 0
  floor_heights := fun _ _ => 0
  ceiling_heights := fun _ _ => 1
  floor_textures := fun _ _ => 0
  ceiling_textures := fun _ _ => 0
  wall_textures := fun _ _ => 0
  doors := []

-- Door operations from src/physics.c

/-- door_open from src/physics.c: only toggles the opening and closing
flags. -/
def door_open (door : Door) : Door :=
  if !door.is_opening && door.open_amount < 1 then
    { door with is_opening := true, is_closing := false }
  else door

/-- door_close from src/physics.c: only toggles the opening and closing
flags. -/
def door_close (door : Door) : Door :=
  if !door.is_closing && door.open_amount > 0 then
    { door with is_closing := true, is_opening := false }
  else door

def DOOR_SPEED : ℚ := 2

/-- door_update from src/physics.c: advances open_amount by
DOOR_SPEED * delta_time while opening or closing, clamping at 1 and 0. -/
def door_update (door : Door) (delta_time : ℚ) : Door :=
  let d1 :=
    if door.is_opening then
      let amt := door.open_amount + DOOR_SPEED * delta_time
      if amt ≥ 1 then { door with open_amount := 1, is_opening := false }
      else { door with open_amount := amt }
    else door
  if d1.is_closing then
    let amt := d1.open_amount - DOOR_SPEED * delta_time
    if amt ≤ 0 then { d1 with open_amount := 0, is_closing := false }
    else { d1 with open_amount := amt }
  else d1

/-- door_check_collision from src/physics.c. -/
def door_check_collision (door : Door) (position : Vec2) : Bool :=
  if door.open_amount ≥ 9/10 then false
  else
    let dx := |position.x - ((door.x : ℚ) + 1/2)|
    let dy := |position.y - ((door.y : ℚ) + 1/2)|
    if door.horizontal then
      decide (dx < 1/2) && decide (dy < (1 - door.open_amount) * (1/2))
    else
      decide (dy < 1/2) && decide (dx < (1 - door.open_amount) * (1/2))

/-- Sample door used by witnesses. -/
def testDoor : Door where
  x := 5
  y := 7
  open_amount := 19/20
  is_opening := false
  is_closing := false
  texture_id := 0
  horizontal := true

/-- C6: for every door and every position, door_check_collision returns
false whenever open_amount is at least 0.9. -/
theorem door_collision_false_when_open (door : Door) (position : Vec2)
    (h : 9/10 ≤ door.open_amount) :
    door_check_collision door position = false := by
  unfold door_check_collision
  rw [if_pos h]

/-- Witness for C6 at a concrete door and position. -/
theorem door_collision_false_when_open_witness :
    door_check_collision testDoor ⟨11/2, 15/2⟩ = false :=
  door_collision_false_when_open testDoor ⟨11/2, 15/2⟩ (by norm_num [testDoor])

/-- C7: every out-of-bounds map query resolves to the conservative default:
tile 1 (solid wall), floor height 0.0, ceiling height 1.0. -/
theorem map_queries_out_of_bounds (map : WorldMap) (x y : ℤ)
    (h : x < 0 ∨ x ≥ MAP_WIDTH ∨ y < 0 ∨ y ≥ MAP_HEIGHT) :
    map_get_tile map x y = 1 ∧ map_get_floor_height map x y = 0 ∧
      map_get_ceiling_height map x y = 1 := by
  refine ⟨?_, ?_, ?_⟩ <;>
    simp only [map_get_tile, map_get_floor_height, map_get_ceiling_height,
      if_pos h]

/-- Witness for C7 at the concrete out-of-bounds coordinate (-1, 64). -/
theorem map_queries_out_of_bounds_witness :
    map_get_tile testWorld (-1) 64 = 1 ∧
      map_get_floor_height testWorld (-1) 64 = 0 ∧
      map_get_ceiling_height testWorld (-1) 64 = 1 :=
  map_queries_out_of_bounds testWorld (-1) 64 (by left; decide)

/-- C9: door_open and door_close leave open_amount untouched, and
door_update with nonnegative delta_time keeps open_amount inside [0, 1]. -/
theorem door_ops_preserve_open_amount_invariant (door : Door)
    (delta_time : ℚ) (hdt : 0 ≤ delta_time)
    (h0 : 0 ≤ door.open_amount) (h1 : door.open_amount ≤ 1) :
    (door_open door).open_amount = door.open_amount ∧
      (door_close door).open_amount = door.open_amount ∧
      0 ≤ (door_update door delta_time).open_amount ∧
      (door_update door delta_time).open_amount ≤ 1 := by
  refine ⟨?_, ?_, ?_, ?_⟩
  · unfold door_open; split <;> rfl
  · unfold door_close; split <;> rfl
  all_goals
    simp only [door_update, DOOR_SPEED]
    split_ifs <;> simp_all <;> linarith

/-- Witness for C9 at a concrete door mid-animation and delta_time 0.3. -/
theorem door_ops_preserve_open_amount_invariant_witness :
    (door_open { testDoor with is_opening := true }).open_amount =
        (19/20 : ℚ) ∧
      (door_close { testDoor with is_opening := true }).open_amount =
        (19/20 : ℚ) ∧
      0 ≤ (door_update { testDoor with is_opening := true }
            (3/10)).open_amount ∧
      (door_update { testDoor with is_opening := true }
            (3/10)).open_amount ≤ 1 :=
  door_ops_preserve_open_amount_invariant
    { testDoor with is_opening := true } (3/10) (by norm_num)
    (by norm_num [testDoor]) (by norm_num [testDoor])

-- Color packing from src/particles.c

/-- color_to_uint32 from src/particles.c: packs (a << 24) | (r << 16) |
(g << 8) | b; for byte-sized channels the bit ranges are disjoint, so the
bitwise OR of the shifted channels equals their sum. -/
def color_to_uint32 (c : Color) : ℕ :=
  c.a * 2 ^ 24 + c.r * 2 ^ 16 + c.g * 2 ^ 8 + c.b

/-- uint32_to_color from src/particles.c: extracts the four bytes. -/
def uint32_to_color (v : ℕ) : Color :=
  ⟨v / 2 ^ 16 % 256, v / 2 ^ 8 % 256, v % 256, v / 2 ^ 24 % 256⟩

/-- Color buffer model: the flat C array color_buffer[y * SCREEN_WIDTH + x]
is represented as a function of the column x and the row y; the flat index
is in bijection with the (x, y) pair for on-screen coordinates. -/
def Buffer : Type := ℤ → ℤ → ℕ

/-- Sample buffer holding a single uniform word, used by witnesses. -/
def testBuffer : Buffer := fun _ _ => 0

/-- Extracting the green byte after packing returns the packed green
channel, provided the green and blue channels are bytes. -/
theorem green_of_pack (c : Color) (hg : c.g < 256) (hb : c.b < 256) :
    (uint32_to_color (color_to_uint32 c)).g = c.g := by
  simp only [uint32_to_color, color_to_uint32]
  omega

-- Post-processing: chromatic aberration from src/rendering.c

/-- post_process_chromatic_aberration from src/rendering.c.  The source
first snapshots the color buffer into post_process_buffer and then reads
only the snapshot while writing the color buffer, so the pass is a pure
function of the input buffer.  The r and b channels are sampled with a
horizontal offset (0 when the offset lands off screen); g is read at the
pixel itself; alpha is written as 255. -/
def post_process_chromatic_aberration (aberration_strength : ℚ)
    (buf : Buffer) : Buffer := fun x y =>
  if 0 ≤ x ∧ x < SCREEN_WIDTH ∧ 0 ≤ y ∧ y < SCREEN_HEIGHT then
    let offset := ctrunc (aberration_strength * 3)
    let rx := x - offset
    let r := if 0 ≤ rx ∧ rx < SCREEN_WIDTH then
        (uint32_to_color (buf rx y)).r else 0
    let g := (uint32_to_color (buf x y)).g
    let bx := x + offset
    let b := if 0 ≤ bx ∧ bx < SCREEN_WIDTH then
        (uint32_to_color (buf bx y)).b else 0
    color_to_uint32 ⟨r, g, b, 255⟩
  else buf x y

/-- C10: the chromatic aberration pass leaves the green channel of every
pixel unchanged. -/
theorem chromatic_aberration_preserves_green (aberration_strength : ℚ)
    (buf : Buffer) (x y : ℤ) :
    (uint32_to_color
        (post_process_chromatic_aberration aberration_strength buf x y)).g =
      (uint32_to_color (buf x y)).g := by
  unfold post_process_chromatic_aberration
  split
  · exact green_of_pack _ (Nat.mod_lt _ (by norm_num)) (by
      dsimp only
      split
      · exact Nat.mod_lt _ (by norm_num)
      · norm_num)
  · rfl

-- Floor and ceiling render loop from src/engine.c

/-- Rows y for which engine_render (src/engine.c) invokes
raycast_floor_ceiling: the loop for (y = SCREEN_HEIGHT / 2; y < SCREEN_HEIGHT; y++). -/
def floor_ceiling_rows : List ℤ :=
  (List.range' (SCREEN_HEIGHT / 2).toNat
      (SCREEN_HEIGHT - SCREEN_HEIGHT / 2).toNat).map (fun (n : ℕ) => (n : ℤ))

/-- Row-distance divisor p = y - SCREEN_HEIGHT / 2 computed by
raycast_floor_ceiling (src/engine.c). -/
def row_divisor (y : ℤ) : ℤ := y - SCREEN_HEIGHT / 2

/-- C4 counterexample: engine_render does pass the horizon row
y = SCREEN_HEIGHT / 2 to raycast_floor_ceiling, and for that row the
divisor p is exactly zero. -/
theorem engine_render_passes_horizon_row :
    (SCREEN_HEIGHT / 2) ∈ floor_ceiling_rows ∧
      row_divisor (SCREEN_HEIGHT / 2) = 0 := by
  constructor
  · unfold floor_ceiling_rows
    rw [List.mem_map]
    exact ⟨360, by rw [List.mem_range'_1]; decide, by
      norm_num [SCREEN_HEIGHT]⟩
  · norm_num [row_divisor]

/-- C4 amended: for every row the render loop passes other than the first
one (the horizon row y = SCREEN_HEIGHT / 2, where p = 0), the divisor p is
strictly positive. -/
theorem row_divisor_positive_off_horizon (y : ℤ)
    (hy : y ∈ floor_ceiling_rows) (hne : y ≠ SCREEN_HEIGHT / 2) :
    0 < row_divisor y := by
  unfold floor_ceiling_rows at hy
  rw [List.mem_map] at hy
  obtain ⟨n, hn, rfl⟩ := hy
  rw [List.mem_range'_1] at hn
  norm_num [SCREEN_HEIGHT] at hn hne
  simp only [row_divisor, SCREEN_HEIGHT]
  omega

/-- Witness for the amended C4 at the concrete row 361. -/
theorem row_divisor_positive_off_horizon_witness : 0 < row_divisor 361 :=
  row_divisor_positive_off_horizon 361
    (by
      unfold floor_ceiling_rows
      rw [List.mem_map]
      exact ⟨361, by rw [List.mem_range'_1]; decide, by
        norm_num⟩)
    (by norm_num [SCREEN_HEIGHT])

-- Lighting pass from src/rendering.c

/-- Per-pixel body of apply_lighting from src/rendering.c: pixel is the
current color buffer entry and depth the z-buffer value of the column.
Starting from the ambient term {0.2, 0.2, 0.25}, every light whose
attenuation intensity / (1 + depth^2 * 0.01) exceeds 0.01 is accumulated;
each channel is then clamped to at most 2 and multiplied into the pixel.
The source narrows each product to uint8_t first and only then compares
against 255, so the comparisons can never fire.  When depth is at or
beyond MAX_RENDER_DISTANCE the source hits continue and the pixel is left
unchanged. -/
def apply_lighting_pixel (lights : List Light) (depth : ℚ)
    (pixel : Color) : Color :=
  if depth ≥ MAX_RENDER_DISTANCE then pixel
  else
    let ambient : ColorF := ⟨1/5, 1/5, 1/4, 1⟩
    let final_light := lights.foldl (fun acc light =>
      let distance := depth
      let attenuation :=
        light.intensity / (1 + distance * distance * (1/100))
      if attenuation > 1/100 then
        { acc with
            r := acc.r + light.color.r * attenuation,
            g := acc.g + light.color.g * attenuation,
            b := acc.b + light.color.b * attenuation }
      else acc) ambient
    let lr := if final_light.r > 2 then 2 else final_light.r
    let lg := if final_light.g > 2 then 2 else final_light.g
    let lb := if final_light.b > 2 then 2 else final_light.b
    let r1 := toU8 ((pixel.r : ℚ) * lr)
    let g1 := toU8 ((pixel.g : ℚ) * lg)
    let b1 := toU8 ((pixel.b : ℚ) * lb)
    let r2 := if r1 > 255 then 255 else r1
    let g2 := if g1 > 255 then 255 else g1
    let b2 := if b1 > 255 then 255 else b1
    ⟨r2, g2, b2, pixel.a⟩

/-- The default light installed by engine_init (src/engine.c). -/
def testLight : Light where
  position := ⟨32, 32, 2⟩
  color := ⟨1, 9/10, 7/10, 1⟩
  intensity := 5
  radius := 15
  cast_shadows := true
  flickering := 0

/-- C3 failing input: a white pixel lit at depth 0 by a single white light
of intensity 5.  The accumulated light clamps to 2 per channel, the product
255 * 2 = 510 is narrowed to the byte 254 before the dead comparison with
255, so the stored channel is the wrapped 254 and not the saturated
min 255 510 = 255 the claim requires. -/
theorem lighting_wraps_instead_of_saturating :
    apply_lighting_pixel
        [{ testLight with color := ⟨1, 1, 1, 1⟩ }] 0 ⟨255, 255, 255, 255⟩ =
        ⟨254, 254, 254, 255⟩ ∧
      (254 : ℕ) ≠ min 255 510 := by
  constructor
  · decide
  · decide

-- Sprite compositor from src/physics.c

/-- Camera from include/engine.h (the fields the render path reads). -/
structure Camera where
  position : Vec2
  direction : Vec2
  plane : Vec2
  pitch : ℚ
  z_position : ℚ
  bob_offset : ℚ
deriving DecidableEq

/-- Sprite from include/engine.h. -/
structure Sprite where
  position : Vec2
  z_height : ℚ
  texture_id : ℤ
  scale : Vec2
  rotation : ℚ
  billboarding : Bool
  tint : ColorF
  cast_shadow : Bool
  animation_frame : ℤ
  animation_speed : ℚ
deriving DecidableEq

/-- Camera-space transform of a world position, computed identically in
render_sprites (src/physics.c) and particle_render (src/particles.c): the
world delta is multiplied by the inverse of the camera [plane, direction]
basis; the y component is the camera-space depth. -/
def sprite_transform (cam : Camera) (world_pos : Vec2) : Vec2 :=
  let sprite_pos : Vec2 :=
    ⟨world_pos.x - cam.position.x, world_pos.y - cam.position.y⟩
  let inv_det :=
    1 / (cam.plane.x * cam.direction.y - cam.direction.x * cam.plane.y)
  ⟨inv_det * (cam.direction.y * sprite_pos.x -
      cam.direction.x * sprite_pos.y),
   inv_det * (-cam.plane.y * sprite_pos.x + cam.plane.x * sprite_pos.y)⟩

/-- Clamped screen-space draw rectangle
(start_x, end_x, start_y, end_y) of a sprite, as computed by
render_sprites from src/physics.c ahead of its column loop. -/
def sprite_bounds (cam : Camera) (sprite : Sprite) : ℤ × ℤ × ℤ × ℤ :=
  let transform := sprite_transform cam sprite.position
  let sprite_screen_x :=
    ctrunc (((Int.tdiv SCREEN_WIDTH 2 : ℤ) : ℚ) *
      (1 + transform.x / transform.y))
  let sprite_height :=
    ctrunc ((|ctrunc ((SCREEN_HEIGHT : ℚ) / transform.y)| : ℤ) *
      sprite.scale.y)
  let sprite_width :=
    ctrunc ((|ctrunc ((SCREEN_HEIGHT : ℚ) / transform.y)| : ℤ) *
      sprite.scale.x)
  let draw_start_y0 :=
    Int.tdiv (-sprite_height) 2 + Int.tdiv SCREEN_HEIGHT 2
  let draw_end_y0 :=
    Int.tdiv sprite_height 2 + Int.tdiv SCREEN_HEIGHT 2
  let draw_start_x0 := Int.tdiv (-sprite_width) 2 + sprite_screen_x
  let draw_end_x0 := Int.tdiv sprite_width 2 + sprite_screen_x
  (if draw_start_x0 < 0 then 0 else draw_start_x0,
   if draw_end_x0 ≥ SCREEN_WIDTH then SCREEN_WIDTH - 1 else draw_end_x0,
   if draw_start_y0 < 0 then 0 else draw_start_y0,
   if draw_end_y0 ≥ SCREEN_HEIGHT then SCREEN_HEIGHT - 1 else draw_end_y0)

/-- Body of the per-sprite loop of render_sprites from src/physics.c,
returning the updated color buffer; the z-buffer is read only.  A sprite
behind the camera (transform.y at most 0) is skipped by continue; a column
is written only when transform.y is strictly below the column z-buffer
entry. -/
def render_sprite (cam : Camera) (z_buffer : ℤ → ℚ) (sprite : Sprite)
    (buf : Buffer) : Buffer :=
  let transform := sprite_transform cam sprite.position
  if transform.y ≤ 0 then buf
  else
    let bounds := sprite_bounds cam sprite
    fun X Y =>
      if bounds.1 ≤ X ∧ X < bounds.2.1 ∧ transform.y < z_buffer X ∧
          bounds.2.2.1 ≤ Y ∧ Y < bounds.2.2.2 then
        color_to_uint32
          ⟨toU8 (255 * sprite.tint.r), toU8 (255 * sprite.tint.g),
           toU8 (255 * sprite.tint.b), 255⟩
      else buf X Y

/-- C5: a sprite with camera-space depth at most 0 writes nothing, and a
pixel changes only when the sprite depth is positive and strictly below
the column z-buffer entry; every pixel failing either condition keeps its
previous color. -/
theorem render_sprite_culling_and_occlusion (cam : Camera)
    (z_buffer : ℤ → ℚ) (sprite : Sprite) (buf : Buffer) (x y : ℤ) :
    ((sprite_transform cam sprite.position).y ≤ 0 →
        render_sprite cam z_buffer sprite buf = buf) ∧
      (render_sprite cam z_buffer sprite buf x y ≠ buf x y →
        0 < (sprite_transform cam sprite.position).y ∧
          (sprite_transform cam sprite.position).y < z_buffer x) := by
  constructor
  · intro h
    unfold render_sprite
    rw [if_pos h]
  · intro hne
    unfold render_sprite at hne
    by_cases h : (sprite_transform cam sprite.position).y ≤ 0
    · rw [if_pos h] at hne
      exact absurd rfl hne
    · rw [if_neg h] at hne
      push_neg at h
      refine ⟨h, ?_⟩
      split at hne
      · next hg => exact hg.2.2.1
      · exact absurd rfl hne

/-- Camera matching the engine_init defaults (src/engine.c). -/
def testCam : Camera where
  position := ⟨32, 32⟩
  direction := ⟨-1, 0⟩
  plane := ⟨0, 33/50⟩
  pitch := 0
  z_position := 1/2
  bob_offset := 0

/-- Sprite placed one cell behind the default camera, so its camera-space
depth is negative. -/
def testSprite : Sprite where
  position := ⟨33, 32⟩
  z_height := 0
  texture_id := 0
  scale := ⟨1, 1⟩
  rotation := 0
  billboarding := true
  tint := ⟨1, 1, 1, 1⟩
  cast_shadow := false
  animation_frame := 0
  animation_speed := 0

/-- Witness for C5: the concrete behind-the-camera sprite leaves the
buffer untouched. -/
theorem render_sprite_culling_and_occlusion_witness :
    render_sprite testCam (fun _ => MAX_RENDER_DISTANCE) testSprite
        testBuffer = testBuffer :=
  (render_sprite_culling_and_occlusion testCam
      (fun _ => MAX_RENDER_DISTANCE) testSprite testBuffer 0 0).1
    (by decide)

-- Texture sampling from src/particles.c and the wall renderer from
-- src/engine.c

/-- Texture from include/engine.h: pixels is the flat array
pixels[y * width + x], or none for a NULL pointer. -/
structure Texture where
  pixels : Option (ℤ → ℕ)
  width : ℤ
  height : ℤ
  has_alpha : Bool

/-- texture_sample from src/particles.c: missing pixel data yields the
magenta sentinel (255, 0, 255, 255); otherwise nearest sampling with
wrap-around (a truncating C remainder followed by a sign fix-up). -/
def texture_sample (texture : Texture) (u v : ℚ) : Color :=
  match texture.pixels with
  | none => ⟨255, 0, 255, 255⟩
  | some px =>
      let x0 := Int.tmod (ctrunc (u * texture.width)) texture.width
      let y0 := Int.tmod (ctrunc (v * texture.height)) texture.height
      let x1 := if x0 < 0 then x0 + texture.width else x0
      let y1 := if y0 < 0 then y0 + texture.height else y0
      uint32_to_color (px (y1 * texture.width + x1))

/-- Ray from include/engine.h. -/
structure Ray where
  origin : Vec2
  direction : Vec2
  distance : ℚ
  map_x : ℤ
  map_y : ℤ
  side : ℤ
  hit_point : Vec2
  perpendicular_distance : ℚ
  texture_id : ℤ
  texture_x : ℚ
  z_height : ℚ
  hit_door : Bool
  door_state : ℤ
deriving DecidableEq

/-- render_textured_wall from src/engine.c, returning the updated
(z_buffer, color_buffer) pair.  When the texture id of the ray is negative
or at least texture_count, the source returns before touching either
buffer.  In the drawing branch, the value of tex_pos at loop row Y equals
its initial value plus (Y - draw_start) times step, and the C expression
(int)tex_pos & (height - 1) is modelled as the nonnegative remainder,
which coincides with the mask for the power-of-two texture heights the
engine uses. -/
def render_textured_wall (cam : Camera) (textures : List Texture) (x : ℤ)
    (ray : Ray) (z_buffer : ℤ → ℚ) (buf : Buffer) : (ℤ → ℚ) × Buffer :=
  let line_height := ctrunc ((SCREEN_HEIGHT : ℚ) / ray.perpendicular_distance)
  let pitch_off := ctrunc (cam.pitch * (SCREEN_HEIGHT : ℚ))
  let bob_off := ctrunc cam.bob_offset
  let draw_start0 :=
    Int.tdiv (-line_height) 2 + Int.tdiv SCREEN_HEIGHT 2 + pitch_off + bob_off
  let draw_end0 :=
    Int.tdiv line_height 2 + Int.tdiv SCREEN_HEIGHT 2 + pitch_off + bob_off
  let draw_start := if draw_start0 < 0 then 0 else draw_start0
  let draw_end := if draw_end0 ≥ SCREEN_HEIGHT then SCREEN_HEIGHT - 1
    else draw_end0
  if ray.texture_id < 0 ∨ ray.texture_id ≥ (textures.length : ℤ) then
    (z_buffer, buf)
  else
    let tex := textures.getD ray.texture_id.toNat ⟨none, 0, 0, false⟩
    let tex_x0 := ctrunc (ray.texture_x * (tex.width : ℚ))
    let tex_x1 := if ray.side = 0 ∧ ray.direction.x > 0 then
        tex.width - tex_x0 - 1
      else tex_x0
    let tex_x := if ray.side = 1 ∧ ray.direction.y < 0 then
        tex.width - tex_x1 - 1
      else tex_x1
    let step := (tex.height : ℚ) / (line_height : ℚ)
    let tex_pos0 :=
      ((draw_start - pitch_off - bob_off - Int.tdiv SCREEN_HEIGHT 2 +
          Int.tdiv line_height 2 : ℤ) : ℚ) * step
    let newBuf : Buffer := fun X Y =>
      if X = x ∧ draw_start ≤ Y ∧ Y < draw_end then
        let tex_pos := tex_pos0 + ((Y - draw_start : ℤ) : ℚ) * step
        let tex_y := (ctrunc tex_pos) % tex.height
        let color := texture_sample tex ((tex_x : ℚ) / (tex.width : ℚ))
          ((tex_y : ℚ) / (tex.height : ℚ))
        let shade := 1 / (1 + ray.perpendicular_distance * (1/10))
        let r1 := toU8 ((color.r : ℚ) * shade)
        let g1 := toU8 ((color.g : ℚ) * shade)
        let b1 := toU8 ((color.b : ℚ) * shade)
        let r2 := if ray.side = 1 then toU8 ((r1 : ℚ) * (7/10)) else r1
        let g2 := if ray.side = 1 then toU8 ((g1 : ℚ) * (7/10)) else g1
        let b2 := if ray.side = 1 then toU8 ((b1 : ℚ) * (7/10)) else b1
        color_to_uint32 ⟨r2, g2, b2, color.a⟩
      else buf X Y
    let newZ : ℤ → ℚ := fun X =>
      if X = x then ray.perpendicular_distance else z_buffer X
    (newZ, newBuf)

/-- Ray record as produced against a visible wall column, but carrying a
texture id for which no texture is loaded. -/
def testRay : Ray where
  origin := ⟨32, 32⟩
  direction := ⟨-1, 0⟩
  distance := 10
  map_x := 22
  map_y := 32
  side := 0
  hit_point := ⟨22, 32⟩
  perpendicular_distance := 10
  texture_id := 0
  texture_x := 0
  z_height := 0
  hit_door := false
  door_state := 0

/-- C8 counterexample: with no textures loaded (texture_count 0), a ray
whose texture id 0 is out of range makes render_textured_wall return with
both buffers untouched; in particular the on-screen pixel (640, 360) of
the column keeps its background value instead of the magenta sentinel the
claim requires. -/
theorem wall_column_skipped_on_invalid_texture_id :
    render_textured_wall testCam [] 640 testRay
        (fun _ => MAX_RENDER_DISTANCE) testBuffer =
        ((fun _ => MAX_RENDER_DISTANCE), testBuffer) ∧
      testBuffer 640 360 ≠ color_to_uint32 ⟨255, 0, 255, 255⟩ := by
  constructor
  · unfold render_textured_wall
    rw [if_pos (by decide)]
  · decide

/-- C8 amended: sampling a texture with missing pixel data returns the
magenta sentinel, while a wall column whose ray carries an out-of-range
texture id is skipped entirely (both buffers unchanged) rather than drawn
in the sentinel color. -/
theorem texture_fallback_and_wall_skip (texture : Texture) (u v : ℚ)
    (cam : Camera) (textures : List Texture) (x : ℤ) (ray : Ray)
    (z_buffer : ℤ → ℚ) (buf : Buffer)
    (hpx : texture.pixels = none)
    (hid : ray.texture_id < 0 ∨ ray.texture_id ≥ (textures.length : ℤ)) :
    texture_sample texture u v = ⟨255, 0, 255, 255⟩ ∧
      render_textured_wall cam textures x ray z_buffer buf =
        (z_buffer, buf) := by
  constructor
  · unfold texture_sample
    rw [hpx]
  · unfold render_textured_wall
    rw [if_pos hid]

/-- Witness for the amended C8 at a concrete empty texture and the
concrete out-of-range ray. -/
theorem texture_fallback_and_wall_skip_witness :
    texture_sample ⟨none, 64, 64, false⟩ 0 0 = ⟨255, 0, 255, 255⟩ ∧
      render_textured_wall testCam [] 640 testRay
          (fun _ => MAX_RENDER_DISTANCE) testBuffer =
        ((fun _ => MAX_RENDER_DISTANCE), testBuffer) :=
  texture_fallback_and_wall_skip ⟨none, 64, 64, false⟩ 0 0 testCam [] 640
    testRay (fun _ => MAX_RENDER_DISTANCE) testBuffer rfl (by decide)

-- DDA wall caster from src/engine.c

/-- Loop-invariant data of the DDA traversal in raycast_dda
(src/engine.c): the world, the ray origin and direction, the fixed cell
steps and side-distance increments, and dist0, the value of the distance
field of the ray during the loop.  The source never writes that field
inside the loop, so the loop condition reads the value the caller left in
the ray record. -/
structure DdaCtx where
  world : WorldMap
  origin : Vec2
  direction : Vec2
  step_x : ℤ
  step_y : ℤ
  delta_dist_x : ℚ
  delta_dist_y : ℚ
  dist0 : ℚ

/-- Mutable state of the DDA traversal loop in raycast_dda. -/
structure DdaState where
  side_dist_x : ℚ
  side_dist_y : ℚ
  map_x : ℤ
  map_y : ℤ
  side : ℤ
  hit : Bool
  hit_door : Bool
  texture_id : ℤ
  door_state : ℤ
deriving DecidableEq

/-- One advance step of the DDA loop (src/engine.c): when side_dist_x is
strictly below side_dist_y the ray steps in x with side 0, otherwise it
steps in y with side 1. -/
def dda_advance (ctx : DdaCtx) (s : DdaState) : DdaState :=
  if s.side_dist_x < s.side_dist_y then
    { s with side_dist_x := s.side_dist_x + ctx.delta_dist_x,
             map_x := s.map_x + ctx.step_x, side := 0 }
  else
    { s with side_dist_y := s.side_dist_y + ctx.delta_dist_y,
             map_y := s.map_y + ctx.step_y, side := 1 }

/-- Cell inspection of the DDA loop body (src/engine.c): the tile of the
current cell is read, the door list is scanned for the first door in the
cell (the source breaks out of the door loop at the first position match),
and a wall tile overrides the texture id afterwards. -/
def dda_check_cell (ctx : DdaCtx) (s : DdaState) : DdaState :=
  let tile := map_get_tile ctx.world s.map_x s.map_y
  let s1 :=
    match ctx.world.doors.find?
        (fun d => d.x == s.map_x && d.y == s.map_y) with
    | none => s
    | some door =>
        let door_pos0 := if door.horizontal then
            ctx.origin.y + ctx.direction.y * s.side_dist_x
          else
            ctx.origin.x + ctx.direction.x * s.side_dist_y
        let door_pos := door_pos0 - ((ctrunc door_pos0 : ℤ) : ℚ)
        if door_pos < door.open_amount then
          { s with hit_door := true,
                   door_state := ctrunc (door.open_amount * 100),
                   texture_id := door.texture_id, hit := true }
        else s
  if tile > 0 then
    { s1 with hit := true,
              texture_id := ctx.world.wall_textures s.map_y s.map_x }
  else s1

/-- The DDA while loop of raycast_dda (src/engine.c), with explicit fuel:
returns the final state together with the number of executed loop
iterations, or none when the fuel is exhausted before the loop exits.  The
loop runs while the ray has not hit and dist0 is below
MAX_RENDER_DISTANCE, and breaks out of the body as soon as the advanced
cell leaves the map bounds. -/
def dda_loop (ctx : DdaCtx) : ℕ → DdaState → Option (DdaState × ℕ)
  | 0, _ => none
  | fuel + 1, s =>
    if s.hit = true ∨ ¬ ctx.dist0 < MAX_RENDER_DISTANCE then some (s, 0)
    else
      let s1 := dda_advance ctx s
      if s1.map_x < 0 ∨ s1.map_x ≥ MAP_WIDTH ∨ s1.map_y < 0 ∨
          s1.map_y ≥ MAP_HEIGHT then
        some (s1, 1)
      else
        match dda_loop ctx fuel (dda_check_cell ctx s1) with
        | none => none
        | some (t, n) => some (t, n + 1)

/-- raycast_dda from src/engine.c, with explicit loop fuel.  ray0 is the
ray record passed in by the caller (engine_render passes a zero record);
its distance, side, texture_id and door_state fields are the values the
fields hold before the function writes them.  The fabsf(1.0f / d) delta
distances require nonzero direction components in this exact embedding
(the source relies on an IEEE infinity for a zero component); theorems
about concrete runs use rays with both components nonzero. -/
def raycast_dda (fuel : ℕ) (cam : Camera) (world : WorldMap) (x : ℤ)
    (ray0 : Ray) : Option (Ray × ℕ) :=
  let camera_x : ℚ := 2 * (x : ℚ) / (SCREEN_WIDTH : ℚ) - 1
  let origin := cam.position
  let direction : Vec2 := ⟨cam.direction.x + cam.plane.x * camera_x,
                           cam.direction.y + cam.plane.y * camera_x⟩
  let map_x0 := ctrunc origin.x
  let map_y0 := ctrunc origin.y
  let delta_dist_x := |1 / direction.x|
  let delta_dist_y := |1 / direction.y|
  let step_x : ℤ := if direction.x < 0 then -1 else 1
  let side_dist_x0 := if direction.x < 0 then
      (origin.x - (map_x0 : ℚ)) * delta_dist_x
    else ((map_x0 : ℚ) + 1 - origin.x) * delta_dist_x
  let step_y : ℤ := if direction.y < 0 then -1 else 1
  let side_dist_y0 := if direction.y < 0 then
      (origin.y - (map_y0 : ℚ)) * delta_dist_y
    else ((map_y0 : ℚ) + 1 - origin.y) * delta_dist_y
  let ctx : DdaCtx := ⟨world, origin, direction, step_x, step_y,
    delta_dist_x, delta_dist_y, ray0.distance⟩
  let s0 : DdaState := ⟨side_dist_x0, side_dist_y0, map_x0, map_y0,
    ray0.side, false, false, ray0.texture_id, ray0.door_state⟩
  match dda_loop ctx fuel s0 with
  | none => none
  | some (s, n) =>
      let perp := if s.side = 0 then
          ((s.map_x : ℚ) - origin.x + ((Int.tdiv (1 - step_x) 2 : ℤ) : ℚ)) /
            direction.x
        else
          ((s.map_y : ℚ) - origin.y + ((Int.tdiv (1 - step_y) 2 : ℤ) : ℚ)) /
            direction.y
      let hit_point : Vec2 := ⟨origin.x + perp * direction.x,
                               origin.y + perp * direction.y⟩
      let tx0 := if s.side = 0 then hit_point.y else hit_point.x
      let tx := tx0 - ((⌊tx0⌋ : ℤ) : ℚ)
      some ({ origin := origin, direction := direction, distance := perp,
              map_x := s.map_x, map_y := s.map_y, side := s.side,
              hit_point := hit_point, perpendicular_distance := perp,
              texture_id := s.texture_id, texture_x := tx,
              z_height := map_get_floor_height world s.map_x s.map_y,
              hit_door := s.hit_door, door_state := s.door_state }, n)

/-- Context of a traversal step with exactly equal side distances: origin
(0.5, 0.5), direction (1, 1), both steps +1, both delta distances 1. -/
def tieCtx : DdaCtx := ⟨testWorld, ⟨1/2, 1/2⟩, ⟨1, 1⟩, 1, 1, 1, 1, 0⟩

/-- Loop state with side_dist_x = side_dist_y = 1/2. -/
def tieState : DdaState := ⟨1/2, 1/2, 0, 0, 0, false, false, 0, 0⟩

/-- C1 counterexample: at a traversal step whose side distances are
exactly equal, the advance keeps map_x, advances map_y, and records
side = 1 -- the opposite of the claimed x-first, side = 0 behaviour,
because the source branches on a strict side_dist_x < side_dist_y
comparison. -/
theorem dda_tie_advances_y_not_x :
    tieState.side_dist_x = tieState.side_dist_y ∧
      (dda_advance tieCtx tieState).side = 1 ∧
      (dda_advance tieCtx tieState).map_x = tieState.map_x ∧
      (dda_advance tieCtx tieState).map_y =
        tieState.map_y + tieCtx.step_y := by
  refine ⟨rfl, ?_, ?_, ?_⟩ <;> decide

/-- C1 amended: at every traversal step whose side distances are exactly
equal, the ray advances in y (side_dist_y grows by delta_dist_y, map_y by
step_y) and records side = 1, while map_x and side_dist_x are unchanged;
x advances first only under a strict side_dist_x < side_dist_y. -/
theorem dda_tie_break_advances_y (ctx : DdaCtx) (s : DdaState)
    (h : s.side_dist_x = s.side_dist_y) :
    (dda_advance ctx s).side = 1 ∧
      (dda_advance ctx s).map_y = s.map_y + ctx.step_y ∧
      (dda_advance ctx s).side_dist_y = s.side_dist_y + ctx.delta_dist_y ∧
      (dda_advance ctx s).map_x = s.map_x ∧
      (dda_advance ctx s).side_dist_x = s.side_dist_x := by
  unfold dda_advance
  rw [if_neg (by rw [h]; exact lt_irrefl _)]
  exact ⟨rfl, rfl, rfl, rfl, rfl⟩

/-- Witness for the amended C1 at the concrete tied state. -/
theorem dda_tie_break_advances_y_witness :
    (dda_advance tieCtx tieState).side = 1 ∧
      (dda_advance tieCtx tieState).map_y =
        tieState.map_y + tieCtx.step_y ∧
      (dda_advance tieCtx tieState).side_dist_y =
        tieState.side_dist_y + tieCtx.delta_dist_y ∧
      (dda_advance tieCtx tieState).map_x = tieState.map_x ∧
      (dda_advance tieCtx tieState).side_dist_x = tieState.side_dist_x :=
  dda_tie_break_advances_y tieCtx tieState rfl

/-- Camera at (1.5, 32.25) looking along +x with the default 0.66 plane;
at column 960 the ray direction is (1, 0.33). -/
def overrunCam : Camera := ⟨⟨3/2, 129/4⟩, ⟨1, 0⟩, ⟨0, 33/50⟩, 0, 1/2, 0⟩

/-- The zero-initialized ray record engine_render passes to raycast_dda. -/
def zeroRay : Ray :=
  ⟨⟨0, 0⟩, ⟨0, 0⟩, 0, 0, 0, 0, ⟨0, 0⟩, 0, 0, 0, 0, false, 0⟩

set_option maxRecDepth 100000 in
/-- C2 failing input: in the all-open test world the ray of column 960
marches clear across the map, 83 loop iterations, before the bounds break
stops it.  The per-iteration ray advances here are the two delta distances
1 and 100/33, so the smallest step is 1 and the claimed iteration bound is
MAX_RENDER_DISTANCE / 1 = 50 < 83: the in-loop distance cutoff never
fires because the distance field of the ray is not updated inside the
loop.  The returned distance, 62.5, is nonnegative (that part of the claim
holds here) yet also exceeds MAX_RENDER_DISTANCE. -/
theorem raycast_dda_exceeds_claimed_iteration_bound :
    (raycast_dda 200 overrunCam testWorld 960 zeroRay).map
        (fun p => (p.2, p.1.distance)) = some (83, 125/2) ∧
      MAX_RENDER_DISTANCE / min 1 (100/33) < (83 : ℚ) ∧
      (0 : ℚ) ≤ 125/2 := by
  refine ⟨?_, ?_, ?_⟩ <;> decide

end RE
